import Mathlib

/-!
A shallow embedding of the AuxPoW verification core of `src/auxpow.cpp`
(merged-mining proof checking for the GlobalToken chain).

Bytes are `Nat` values; a `uint256` is its list of 32 bytes.  The double-SHA256
primitive (`Hash`) and the transaction hash (`GetHash`) are external
collaborators of this translation unit, so every function that uses them takes
the hash function as an explicit argument; all theorems below are universally
quantified over it.  Machine integers are modelled as `Nat` / `Int` with
explicit reductions mod `2 ^ 32` where the C++ wraps.
-/

namespace GlobalToken

/-- A byte; stored as `Nat`, reduced mod 256 where the value matters. -/
abbrev Byte := Nat

/-- Value of a `uint256`, as its 32-byte little-endian byte list. -/
abbrev Hash256 := List Byte

/-- The default-constructed `uint256 ()`: the all-zero hash. -/
def zeroHash : Hash256 := List.replicate 32 0

/-- The merged-mining magic bytes `pchMergedMiningHeader`: `0xfa 0xbe 0x6d 0x6d`. -/
def pchMergedMiningHeader : List Byte := [0xfa, 0xbe, 0x6d, 0x6d]

/-- Model of `std::search`: the index of the first occurrence of `pat` inside `s`
(`none` when absent; an empty pattern matches at the front, exactly as
`std::search` returns `first` in that case). -/
def findSub (pat : List Byte) : List Byte → Option Nat
  | [] => if pat = [] then some 0 else none
  | a :: s =>
    if pat.isPrefixOf (a :: s) then some 0
    else (findSub pat s).map (· + 1)

/-- Read a little-endian `uint32` from the first four bytes of `bs`
(the two `memcpy` + `le32toh` reads in `check`; each byte reduced mod 256). -/
def u32le (bs : List Byte) : Nat :=
  match bs with
  | b0 :: b1 :: b2 :: b3 :: _ =>
    b0 % 256 + b1 % 256 * 256 + b2 % 256 * 65536 + b3 % 256 * 16777216
  | _ => 0

/-- Modelled from the spec: the version flag bits `AUXPOW_EQUIHASH_FLAG`,
`AUXPOW_ZHASH_FLAG`, `AUXPOW_STAKE_FLAG` are declared in a header that is not
part of this translation unit; the spec fixes them only as three distinct bits
of `nVersion`, so we pick three distinct single bits. -/
def AUXPOW_EQUIHASH_FLAG : Nat := 1

/-- Modelled from the spec: see `AUXPOW_EQUIHASH_FLAG`. -/
def AUXPOW_ZHASH_FLAG : Nat := 2

/-- Modelled from the spec: see `AUXPOW_EQUIHASH_FLAG`. -/
def AUXPOW_STAKE_FLAG : Nat := 4

/-- The part of `CBaseMerkleTx` (and its PoS twin) that `check` consumes:
the transaction hash `GetHash ()` (an external serialization + double-SHA256,
carried as a value), the `scriptSig` of the first input, the leaf index
`nIndex`, and the Merkle branch up to the transaction root of the parent
block. -/
structure CBaseMerkleTx where
  txHash : Hash256
  scriptSig : List Byte
  nIndex : Int
  vMerkleBranch : List Hash256

/-- The part of a parent block header that `check` consumes: the `nVersion`
word (as an unsigned 32-bit value) and the transaction Merkle root. -/
structure CBlockHeaderParent where
  nVersion : Nat
  hashMerkleRoot : Hash256

/-- Modelled from the spec: `GetChainId` is declared in a header that is not
part of this translation unit; the spec fixes it as the upper 16 bits of the
32-bit `nVersion` of the parent header. -/
def CBlockHeaderParent.GetChainId (b : CBlockHeaderParent) : Int :=
  ((b.nVersion % 2 ^ 32) / 2 ^ 16 : Nat)

/-- Model of `Consensus::Params`, restricted to the field `check` reads. -/
structure ConsensusParams where
  fStrictChainId : Bool

/-- Model of `CAuxPow`: the fields read by `check` and written by `initAuxPow`.
`strZhashConfig` is the `std::string` Zhash personalization member. -/
structure CAuxPow where
  nVersion : Nat
  coinbaseTx : CBaseMerkleTx
  coinbasePOSTx : CBaseMerkleTx
  defaultparentBlock : CBlockHeaderParent
  equihashparentBlock : CBlockHeaderParent
  vChainMerkleBranch : List Hash256
  nChainIndex : Int
  strZhashConfig : String

/-- Model of `CAuxPow::isAuxPowEquihash`: `nVersion & AUXPOW_EQUIHASH_FLAG`. -/
def CAuxPow.isAuxPowEquihash (ap : CAuxPow) : Bool :=
  ap.nVersion &&& AUXPOW_EQUIHASH_FLAG != 0

/-- Model of `CAuxPow::isAuxPowZhash`: `nVersion & AUXPOW_ZHASH_FLAG`. -/
def CAuxPow.isAuxPowZhash (ap : CAuxPow) : Bool :=
  ap.nVersion &&& AUXPOW_ZHASH_FLAG != 0

/-- Model of `CAuxPow::isAuxPowPOS`: `nVersion & AUXPOW_STAKE_FLAG`. -/
def CAuxPow.isAuxPowPOS (ap : CAuxPow) : Bool :=
  ap.nVersion &&& AUXPOW_STAKE_FLAG != 0

/-- The coinbase proof selected by the stake flag: the
`isAuxPowPOS() ? coinbasePOSTx : coinbaseTx` ternaries of `check`. -/
def CAuxPow.selTx (ap : CAuxPow) : CBaseMerkleTx :=
  if ap.isAuxPowPOS then ap.coinbasePOSTx else ap.coinbaseTx

/-- The parent header selected by the Equihash flag: the
`isAuxPowEquihash() ? getEquihashParentBlock() : getDefaultParentBlock()`
ternaries of `check`. -/
def CAuxPow.selParent (ap : CAuxPow) : CBlockHeaderParent :=
  if ap.isAuxPowEquihash then ap.equihashparentBlock else ap.defaultparentBlock

/-- The loop of `CAuxPow::CheckMerkleBranch`: fold the accumulator over the
siblings; the low bit of the (signed, arithmetically shifted) index picks the
side of the concatenation fed to the double-SHA256 `hashFn`. -/
def CheckMerkleBranchFold (hashFn : List Byte → Hash256) :
    Hash256 → List Hash256 → Int → Hash256
  | hash, [], _ => hash
  | hash, it :: rest, nIndex =>
    CheckMerkleBranchFold hashFn
      (if nIndex % 2 = 1 then hashFn (it ++ hash) else hashFn (hash ++ it))
      rest (Int.fdiv nIndex 2)

/-- Model of `CAuxPow::CheckMerkleBranch`: the sentinel index `-1` (the `int` reading of
`0xFFFFFFFF`) yields the null hash; otherwise fold over the branch. -/
def CAuxPow.CheckMerkleBranch (hashFn : List Byte → Hash256) (hash : Hash256)
    (vMerkleBranch : List Hash256) (nIndex : Int) : Hash256 :=
  if nIndex = -1 then zeroHash
  else CheckMerkleBranchFold hashFn hash vMerkleBranch nIndex

/-- Model of `CAuxPow::getExpectedIndex`: the two-step LCG on a `uint32_t` accumulator,
with the (signed) chain id mixed in between, reduced mod `1u << h` at the end. -/
def CAuxPow.getExpectedIndex (nNonce : Nat) (nChainId : Int) (h : Nat) : Nat :=
  let rand0 : Nat := nNonce % 2 ^ 32
  let rand1 : Nat := (rand0 * 1103515245 + 12345) % 2 ^ 32
  let rand2 : Nat := (((rand1 : Int) + nChainId) % (2 ^ 32 : Int)).toNat
  let rand3 : Nat := (rand2 * 1103515245 + 12345) % 2 ^ 32
  rand3 % 2 ^ h

/-- The magic-header placement checks of `check` (the `pcHead` block): with a
magic header present it must occur once and sit immediately before the root
bytes found at `pcPos`; without one the root bytes must start within the first
20 bytes of the script. -/
def mmHeaderCheck (script : List Byte) (pcPos : Nat) : Except String Unit :=
  match findSub pchMergedMiningHeader script with
  | some headPos =>
    if (findSub pchMergedMiningHeader (script.drop (headPos + 1))).isSome then
      Except.error "Multiple merged mining headers in coinbase"
    else if headPos + pchMergedMiningHeader.length ≠ pcPos then
      Except.error "Merged mining header is not just before chain merkle root"
    else Except.ok ()
  | none =>
    if pcPos > 20 then
      Except.error "Aux POW chain merkle root must start in the first 20 bytes of the parent coinbase"
    else Except.ok ()

/-- Model of `CAuxPow::check`, with the `error (...)` / `return false` exits modelled as
`Except.error` of the logged reason and `return true` as `Except.ok ()`. -/
def CAuxPow.check (hashFn : List Byte → Hash256) (ap : CAuxPow)
    (hashAuxBlock : Hash256) (nChainId : Int) (params : ConsensusParams) :
    Except String Unit :=
  if ap.selTx.nIndex ≠ 0 then
    Except.error "AuxPow is not a generate"
  else if params.fStrictChainId ∧ ap.selParent.GetChainId = nChainId then
    Except.error "Aux POW parent has our chain ID"
  else if ap.vChainMerkleBranch.length > 30 then
    Except.error "Aux POW chain merkle branch too long"
  else if ap.isAuxPowZhash ∧ ap.strZhashConfig.length ≠ 8 then
    Except.error "Aux POW Zhash personalization string size has wrong size."
  else
    let vchRootHash :=
      (CheckMerkleBranch hashFn hashAuxBlock ap.vChainMerkleBranch ap.nChainIndex).reverse
    if CheckMerkleBranch hashFn ap.selTx.txHash ap.selTx.vMerkleBranch ap.selTx.nIndex
        ≠ ap.selParent.hashMerkleRoot then
      Except.error "Aux POW merkle root incorrect"
    else
      let script := ap.selTx.scriptSig
      match findSub vchRootHash script with
      | none => Except.error "Aux POW missing chain merkle root in parent coinbase"
      | some pcPos =>
        match mmHeaderCheck script pcPos with
        | Except.error e => Except.error e
        | Except.ok _ =>
          let p := pcPos + vchRootHash.length
          if script.length - p < 8 then
            Except.error "Aux POW missing chain merkle tree size and nonce in parent coinbase"
          else
            let merkleHeight := ap.vChainMerkleBranch.length
            if u32le (script.drop p) ≠ 2 ^ merkleHeight % 2 ^ 32 then
              Except.error "Aux POW merkle branch size does not match parent coinbase"
            else if ap.nChainIndex ≠ (getExpectedIndex (u32le (script.drop (p + 4))) nChainId merkleHeight : Int) then
              Except.error "Aux POW wrong index"
            else Except.ok ()

/-- Modelled from the spec: `CScript () << data` pushdata-encodes the payload;
for payloads shorter than `0x4c` bytes this is one length byte followed by the
payload bytes. -/
def scriptPushData (data : List Byte) : List Byte :=
  data.length :: data

/-- Modelled from the spec: a default-constructed Merkle transaction (the
coinbase member the flags do not select is left default-constructed and is
never read by `check` on the selected path). -/
def nullBaseMerkleTx : CBaseMerkleTx :=
  { txHash := zeroHash, scriptSig := [], nIndex := -1, vMerkleBranch := [] }

/-- Modelled from the spec: a default-constructed parent block header. -/
def nullParentHeader : CBlockHeaderParent :=
  { nVersion := 0, hashMerkleRoot := zeroHash }

/-- Model of `CAuxPow::initAuxPow`.  Here `blockHash` is `header.GetHash ()` taken after the
auxpow version bit is set; `algoEquihashFamily` is
`header.GetAlgo () == ALGO_EQUIHASH || header.GetAlgo () == ALGO_ZHASH`
(the algorithm enum lives outside this translation unit); `coinbaseHash` is
the `GetHash ()` of the synthetic coinbase built here, which — modelled from
the spec — also equals the transaction Merkle root of the synthetic
single-transaction parent block; `strZhashPersonalize` is the global 8-byte
personalization string.  Members the source leaves unassigned keep their
default-constructed values. -/
def CAuxPow.initAuxPow (blockHash : Hash256) (algoEquihashFamily : Bool)
    (nAuxPowVersion : Nat) (coinbaseHash : Hash256)
    (strZhashPersonalize : String) : CAuxPow :=
  let inputData := blockHash.reverse ++ [1] ++ List.replicate 7 0
  let cbTx : CBaseMerkleTx :=
    { txHash := coinbaseHash, scriptSig := scriptPushData inputData,
      nIndex := 0, vMerkleBranch := [] }
  let parent : CBlockHeaderParent :=
    { nVersion := 1, hashMerkleRoot := coinbaseHash }
  if algoEquihashFamily ∧
      (nAuxPowVersion &&& AUXPOW_EQUIHASH_FLAG ≠ 0 ∨
       nAuxPowVersion &&& AUXPOW_ZHASH_FLAG ≠ 0) then
    if nAuxPowVersion &&& AUXPOW_STAKE_FLAG ≠ 0 then
      { nVersion := nAuxPowVersion, coinbaseTx := nullBaseMerkleTx,
        coinbasePOSTx := cbTx, defaultparentBlock := nullParentHeader,
        equihashparentBlock := parent, vChainMerkleBranch := [],
        nChainIndex := 0,
        strZhashConfig :=
          if nAuxPowVersion &&& AUXPOW_ZHASH_FLAG ≠ 0 then strZhashPersonalize
          else "" }
    else
      { nVersion := nAuxPowVersion, coinbaseTx := cbTx,
        coinbasePOSTx := nullBaseMerkleTx,
        defaultparentBlock := nullParentHeader,
        equihashparentBlock := parent, vChainMerkleBranch := [],
        nChainIndex := 0,
        strZhashConfig :=
          if nAuxPowVersion &&& AUXPOW_ZHASH_FLAG ≠ 0 then strZhashPersonalize
          else "" }
  else
    if nAuxPowVersion &&& AUXPOW_STAKE_FLAG ≠ 0 then
      { nVersion := nAuxPowVersion, coinbaseTx := nullBaseMerkleTx,
        coinbasePOSTx := cbTx, defaultparentBlock := parent,
        equihashparentBlock := nullParentHeader, vChainMerkleBranch := [],
        nChainIndex := 0, strZhashConfig := "" }
    else
      { nVersion := nAuxPowVersion, coinbaseTx := cbTx,
        coinbasePOSTx := nullBaseMerkleTx, defaultparentBlock := parent,
        equihashparentBlock := nullParentHeader, vChainMerkleBranch := [],
        nChainIndex := 0, strZhashConfig := "" }

/-- The deterministic chain index as the spec words it: the two-step LCG
`r := r * 1103515245 + 12345 (mod 2 ^ 32)` with the signed chain id added
(mod `2 ^ 32`) in between, reduced mod `2 ^ height` at the end. -/
def expectedIndexSpec (nonce : Nat) (chainId : Int) (height : Nat) : Nat :=
  let r0 : Int := (nonce : Int) % 2 ^ 32
  let r1 : Int := (r0 * 1103515245 + 12345) % 2 ^ 32
  let r2 : Int := (r1 + chainId) % 2 ^ 32
  let r3 : Int := (r2 * 1103515245 + 12345) % 2 ^ 32
  (r3 % 2 ^ height).toNat

/-- The Merkle branch fold as the spec words it: sentinel index gives the
zero hash; otherwise a left fold over the siblings carrying the accumulator
and the index, the low bit of the index picking the side of the
concatenation, the index arithmetically shifted right each step. -/
def foldMerkleSpec (hashFn : List Byte → Hash256) (leaf : Hash256)
    (branch : List Hash256) (index : Int) : Hash256 :=
  if index = -1 then zeroHash
  else
    (branch.foldl
      (fun acc sib =>
        (if acc.2 % 2 = 1 then hashFn (sib ++ acc.1) else hashFn (acc.1 ++ sib),
         Int.fdiv acc.2 2))
      (leaf, index)).1

/-- A concrete stand-in for the external double-SHA256 collaborator, used only
to instantiate universally quantified theorems at concrete inputs. -/
def dummyHashFn : List Byte → Hash256 := fun _ => zeroHash

/-- A concrete AuxPoW that `check` accepts (legacy positional path, empty
branches, chain id 0, nonce 0, tree size 1). -/
def apGood : CAuxPow :=
  { nVersion := 0
    coinbaseTx :=
      { txHash := zeroHash
        scriptSig := List.replicate 32 0 ++ [1, 0, 0, 0, 0, 0, 0, 0]
        nIndex := 0
        vMerkleBranch := [] }
    coinbasePOSTx := nullBaseMerkleTx
    defaultparentBlock := { nVersion := 0, hashMerkleRoot := zeroHash }
    equihashparentBlock := nullParentHeader
    vChainMerkleBranch := []
    nChainIndex := 0
    strZhashConfig := "" }

/-- Variant of `apGood` with the coinbase proof index set to 1. -/
def apIndexOne : CAuxPow :=
  { apGood with
    coinbaseTx :=
      { txHash := zeroHash
        scriptSig := List.replicate 32 0 ++ [1, 0, 0, 0, 0, 0, 0, 0]
        nIndex := 1
        vMerkleBranch := [] } }

/-- Variant of `apGood` with a 31-element chain Merkle branch. -/
def apLongBranch : CAuxPow :=
  { apGood with vChainMerkleBranch := List.replicate 31 zeroHash }

/-- Variant of `apIndexOne` with a 31-element chain Merkle branch. -/
def apLongBranchIndexOne : CAuxPow :=
  { apIndexOne with vChainMerkleBranch := List.replicate 31 zeroHash }

/-- Variant of `apGood` with a coinbase script holding two copies of the merged-mining
magic (around the 32 zero root bytes) and coinbase proof index 1. -/
def apTwoMagicIndexOne : CAuxPow :=
  { apGood with
    coinbaseTx :=
      { txHash := zeroHash
        scriptSig := pchMergedMiningHeader ++ List.replicate 32 0 ++ pchMergedMiningHeader
        nIndex := 1
        vMerkleBranch := [] } }

/-- Variant of `apTwoMagicIndexOne` with coinbase proof index 0 (reaches the script scan). -/
def apTwoMagic : CAuxPow :=
  { apGood with
    coinbaseTx :=
      { txHash := zeroHash
        scriptSig := pchMergedMiningHeader ++ List.replicate 32 0 ++ pchMergedMiningHeader
        nIndex := 0
        vMerkleBranch := [] } }

/-- Variant of `apGood` with the chain index set to `-1` (the sentinel). -/
def apNegIndex : CAuxPow :=
  { apGood with nChainIndex := -1 }

lemma checkMerkleBranchFold_eq_foldl (hashFn : List Byte → Hash256)
    (branch : List Hash256) :
    ∀ (hash : Hash256) (idx : Int),
      CheckMerkleBranchFold hashFn hash branch idx =
        (branch.foldl
          (fun acc sib =>
            (if acc.2 % 2 = 1 then hashFn (sib ++ acc.1) else hashFn (acc.1 ++ sib),
             Int.fdiv acc.2 2)) (hash, idx)).1 := by
  induction branch with
  | nil => intro hash idx; rfl
  | cons a t ih =>
    intro hash idx
    simp only [CheckMerkleBranchFold, List.foldl]
    exact ih _ _

/-- C9: folding the empty branch with index 0 returns the leaf unchanged,
for every hash and every double-SHA256 collaborator. -/
theorem checkMerkleBranch_empty_identity (hashFn : List Byte → Hash256)
    (x : Hash256) : CAuxPow.CheckMerkleBranch hashFn x [] 0 = x := rfl

/-- C4: the function `CheckMerkleBranch` returns the zero hash at the sentinel index `-1`
(the `int` reading of `0xFFFFFFFF`) and otherwise folds the leaf over the
siblings, hashing `sibling ++ acc` when the low bit of the running index is 1
and `acc ++ sibling` when it is 0, shifting the index right arithmetically
after each step — for every leaf, branch and index. -/
theorem checkMerkleBranch_eq_foldSpec (hashFn : List Byte → Hash256)
    (leaf : Hash256) (branch : List Hash256) (index : Int) :
    CAuxPow.CheckMerkleBranch hashFn leaf branch index =
      foldMerkleSpec hashFn leaf branch index := by
  unfold CAuxPow.CheckMerkleBranch foldMerkleSpec
  split
  · rfl
  · exact checkMerkleBranchFold_eq_foldl hashFn branch leaf index

/-- C3: the function `getExpectedIndex` computes exactly the two-step LCG of the spec, with the
chain id mixed in between, all intermediates wrapping mod `2 ^ 32`; being a
Lean function it is pure (equal inputs give equal outputs). -/
theorem getExpectedIndex_eq_spec (nonce : Nat) (chainId : Int) (h : Nat)
    (hh : h ≤ 30) :
    CAuxPow.getExpectedIndex nonce chainId h = expectedIndexSpec nonce chainId h := by
  simp only [CAuxPow.getExpectedIndex, expectedIndexSpec]
  have e1 : (((nonce : ℤ) % 2 ^ 32) * 1103515245 + 12345) % 2 ^ 32
      = ((((nonce % 2 ^ 32) * 1103515245 + 12345) % 2 ^ 32 : ℕ) : ℤ) := by
    push_cast
    ring_nf
  rw [e1]
  set A : ℕ := ((nonce % 2 ^ 32) * 1103515245 + 12345) % 2 ^ 32 with hA
  set m : ℤ := ((A : ℤ) + chainId) % 2 ^ 32 with hm
  have hm0 : 0 ≤ m := Int.emod_nonneg _ (by norm_num)
  have e2 : (m * 1103515245 + 12345) % 2 ^ 32
      = (((m.toNat * 1103515245 + 12345) % 2 ^ 32 : ℕ) : ℤ) := by
    push_cast
    rw [Int.toNat_of_nonneg hm0]
  rw [e2]
  set B : ℕ := (m.toNat * 1103515245 + 12345) % 2 ^ 32 with hB
  have e3 : ((B : ℤ) % 2 ^ h) = ((B % 2 ^ h : ℕ) : ℤ) := by push_cast; ring
  rw [e3, Int.toNat_natCast]

/-- Witness for C3 at `nonce = 7`, `chainId = 3`, `h = 5`. -/
theorem getExpectedIndex_eq_spec_witness :
    (5 : ℕ) ≤ 30 ∧
      CAuxPow.getExpectedIndex 7 3 5 = expectedIndexSpec 7 3 5 :=
  ⟨by norm_num, getExpectedIndex_eq_spec 7 3 5 (by norm_num)⟩

/-- Master acceptance lemma: `check` succeeds on any AuxPoW whose selected
coinbase proof and parent are in the minimal shape that `initAuxPow` builds —
empty branches, zero indexes, coinbase hash equal to the parent Merkle root,
and the script `pushdata (reverse childHash ++ [1] ++ 0x00 x 7)` — provided
the magic bytes do not occur in the script and the reversed child hash first
occurs right after the length byte. -/
lemma check_ok_master (hashFn : List Byte → Hash256) (ap : CAuxPow)
    (childHash : Hash256) (nChainId : Int)
    (hlen : childHash.length = 32)
    (hIdx : ap.selTx.nIndex = 0)
    (hBr : ap.vChainMerkleBranch = [])
    (hCi : ap.nChainIndex = 0)
    (hZ : ap.isAuxPowZhash = true → ap.strZhashConfig.length = 8)
    (hTb : ap.selTx.vMerkleBranch = [])
    (hTh : ap.selTx.txHash = ap.selParent.hashMerkleRoot)
    (hS : ap.selTx.scriptSig
      = scriptPushData (childHash.reverse ++ [1] ++ List.replicate 7 0))
    (hMagic : findSub pchMergedMiningHeader ap.selTx.scriptSig = none)
    (hRoot : findSub childHash.reverse ap.selTx.scriptSig = some 1) :
    CAuxPow.check hashFn ap childHash nChainId ⟨false⟩ = Except.ok () := by
  have hrl : childHash.reverse.length = 32 := by
    rw [List.length_reverse, hlen]
  have hfold : CAuxPow.CheckMerkleBranch hashFn childHash ap.vChainMerkleBranch
      ap.nChainIndex = childHash := by
    rw [hBr, hCi]; rfl
  have hfold2 : ¬(CAuxPow.CheckMerkleBranch hashFn ap.selTx.txHash
      ap.selTx.vMerkleBranch ap.selTx.nIndex ≠ ap.selParent.hashMerkleRoot) := by
    rw [hTb, hIdx]
    exact fun hne => hne hTh
  have hd33 : ap.selTx.scriptSig.drop 33 = [1, 0, 0, 0, 0, 0, 0, 0] := by
    rw [hS]
    unfold scriptPushData
    rw [show (33 : Nat) = 32 + 1 from rfl, List.drop_succ_cons,
      List.append_assoc, ← hrl, List.drop_left]
    rfl
  have hd37 : ap.selTx.scriptSig.drop 37 = [0, 0, 0, 0] := by
    have hsplit : ap.selTx.scriptSig.drop 37 = (ap.selTx.scriptSig.drop 33).drop 4 := by
      rw [List.drop_drop]
    rw [hsplit, hd33]
    rfl
  have hsl : ap.selTx.scriptSig.length = 41 := by
    rw [hS]
    unfold scriptPushData
    simp [hrl]
  have hexp : ∀ x : Nat, CAuxPow.getExpectedIndex x nChainId 0 = 0 := by
    intro x
    simp [CAuxPow.getExpectedIndex, Nat.mod_one]
  simp only [CAuxPow.check]
  rw [if_neg (by simp [hIdx]), if_neg (by simp), if_neg (by simp [hBr]),
    if_neg (fun hand => hand.2 (hZ hand.1)), if_neg hfold2, hfold, hRoot]
  simp only [mmHeaderCheck, hMagic]
  rw [if_neg (show ¬((1 : Nat) > 20) by norm_num)]
  dsimp only
  have h8 : ¬(ap.selTx.scriptSig.length - (1 + childHash.reverse.length) < 8) := by
    rw [hsl, hrl]
    decide
  rw [if_neg h8]
  have hp : 1 + childHash.reverse.length = 33 := by rw [hrl]
  rw [hp, hd33, hBr]
  rw [if_neg (by simp [u32le])]
  rw [show (33 : Nat) + 4 = 37 from by norm_num, hd37, hCi]
  simp only [List.length_nil, hexp, Nat.cast_zero]
  rw [if_neg (show ¬((0 : Int) ≠ 0) from by norm_num)]

/-- C1 counterexample: for the legal flag combination `ZHASH_FLAG` alone on a
header whose algorithm is not in the Equihash family, `initAuxPow` takes the
default branch and never sets the personalization string, so the subsequent
`check` fails (with the Zhash length reason) instead of succeeding. -/
theorem initAuxPow_roundtrip_fails_for_zhash_only :
    CAuxPow.check dummyHashFn
      (CAuxPow.initAuxPow (List.replicate 32 0) false AUXPOW_ZHASH_FLAG
        zeroHash "AAAAAAAA")
      (List.replicate 32 0) 0 ⟨false⟩
      = Except.error "Aux POW Zhash personalization string size has wrong size." :=
  rfl

/-- C1 (amended): the verifier with `strictChainId = false` accepts the output of
`initAuxPow` for any chain id, provided the version flags are consistent with
the header algorithm (`EQUIHASH_FLAG` only on an Equihash-family header, and
`ZHASH_FLAG` only together with `EQUIHASH_FLAG`), the personalization string
has length 8, and the child hash is generic for the script scan (the magic
bytes do not occur in the built script and the reversed child hash first
occurs right after the pushdata length byte). -/
theorem initAuxPow_check_roundtrip (hashFn : List Byte → Hash256)
    (blockHash coinbaseHash : Hash256) (algoEquihashFamily : Bool)
    (nAuxPowVersion : Nat) (strZhashPersonalize : String) (nChainId : Int)
    (hlen : blockHash.length = 32)
    (hz : strZhashPersonalize.length = 8)
    (hEq : nAuxPowVersion &&& AUXPOW_EQUIHASH_FLAG ≠ 0 →
      algoEquihashFamily = true)
    (hZh : nAuxPowVersion &&& AUXPOW_ZHASH_FLAG ≠ 0 →
      nAuxPowVersion &&& AUXPOW_EQUIHASH_FLAG ≠ 0)
    (hMagic : findSub pchMergedMiningHeader
      (scriptPushData (blockHash.reverse ++ [1, 0, 0, 0, 0, 0, 0, 0])) = none)
    (hRoot : findSub blockHash.reverse
      (scriptPushData (blockHash.reverse ++ [1, 0, 0, 0, 0, 0, 0, 0]))
      = some 1) :
    CAuxPow.check hashFn
      (CAuxPow.initAuxPow blockHash algoEquihashFamily nAuxPowVersion
        coinbaseHash strZhashPersonalize)
      blockHash nChainId ⟨false⟩ = Except.ok () := by
  by_cases hE : nAuxPowVersion &&& AUXPOW_EQUIHASH_FLAG = 0
  · have hZz : nAuxPowVersion &&& AUXPOW_ZHASH_FLAG = 0 := by
      by_contra hc
      exact hZh hc hE
    by_cases hSk : nAuxPowVersion &&& AUXPOW_STAKE_FLAG = 0
    · refine check_ok_master hashFn _ blockHash nChainId hlen ?_ ?_ ?_ ?_ ?_ ?_ ?_ ?_ ?_ <;>
        simp [CAuxPow.initAuxPow, CAuxPow.selTx, CAuxPow.selParent,
          CAuxPow.isAuxPowPOS, CAuxPow.isAuxPowEquihash, CAuxPow.isAuxPowZhash,
          hE, hZz, hSk, hz, hMagic, hRoot]
    · refine check_ok_master hashFn _ blockHash nChainId hlen ?_ ?_ ?_ ?_ ?_ ?_ ?_ ?_ ?_ <;>
        simp [CAuxPow.initAuxPow, CAuxPow.selTx, CAuxPow.selParent,
          CAuxPow.isAuxPowPOS, CAuxPow.isAuxPowEquihash, CAuxPow.isAuxPowZhash,
          hE, hZz, hSk, hz, hMagic, hRoot]
  · have hA : algoEquihashFamily = true := hEq hE
    by_cases hSk : nAuxPowVersion &&& AUXPOW_STAKE_FLAG = 0
    · refine check_ok_master hashFn _ blockHash nChainId hlen ?_ ?_ ?_ ?_ ?_ ?_ ?_ ?_ ?_ <;>
        simp [CAuxPow.initAuxPow, CAuxPow.selTx, CAuxPow.selParent,
          CAuxPow.isAuxPowPOS, CAuxPow.isAuxPowEquihash, CAuxPow.isAuxPowZhash,
          hE, hA, hSk, hz, hMagic, hRoot] <;>
        (intro hzz; rw [if_neg hzz]; exact hz)
    · refine check_ok_master hashFn _ blockHash nChainId hlen ?_ ?_ ?_ ?_ ?_ ?_ ?_ ?_ ?_ <;>
        simp [CAuxPow.initAuxPow, CAuxPow.selTx, CAuxPow.selParent,
          CAuxPow.isAuxPowPOS, CAuxPow.isAuxPowEquihash, CAuxPow.isAuxPowZhash,
          hE, hA, hSk, hz, hMagic, hRoot] <;>
        (intro hzz; rw [if_neg hzz]; exact hz)

/-- Witness for the amended C1: the no-flags combination on a concrete child
hash. -/
theorem initAuxPow_check_roundtrip_witness :
    CAuxPow.check dummyHashFn
      (CAuxPow.initAuxPow (List.replicate 32 0) false 0 zeroHash "AAAAAAAA")
      (List.replicate 32 0) 5 ⟨false⟩ = Except.ok () :=
  initAuxPow_check_roundtrip dummyHashFn (List.replicate 32 0) zeroHash false 0
    "AAAAAAAA" 5 (by decide) (by decide) (by decide) (by decide) (by decide)
    (by decide)

/-- C2 counterexample: with `strictChainId` set and the encoded parent chain
id equal to the child chain id (both 0), an AuxPoW whose coinbase proof index
is 1 is rejected as "AuxPow is not a generate" — so the same-chain-id check is
not the first check performed. -/
theorem check_same_chain_id_not_first :
    apIndexOne.selParent.GetChainId = 0 ∧
      CAuxPow.check dummyHashFn apIndexOne zeroHash 0 ⟨true⟩
        = Except.error "AuxPow is not a generate" :=
  ⟨rfl, rfl⟩

/-- C2 (amended): when `strictChainId` is set and the encoded parent
chain id equals the child chain id, `check` fails with
"Aux POW parent has our chain ID", provided the coinbase proof index is 0
(the coinbase-index check "AuxPow is not a generate" runs first); no later
check is reached, regardless of the other fields. -/
theorem check_same_chain_id_rejects (hashFn : List Byte → Hash256)
    (ap : CAuxPow) (hashAuxBlock : Hash256) (nChainId : Int)
    (params : ConsensusParams)
    (hIdx : ap.selTx.nIndex = 0)
    (hStrict : params.fStrictChainId = true)
    (hSame : ap.selParent.GetChainId = nChainId) :
    CAuxPow.check hashFn ap hashAuxBlock nChainId params
      = Except.error "Aux POW parent has our chain ID" := by
  unfold CAuxPow.check
  rw [if_neg (by simp [hIdx]), if_pos ⟨hStrict, hSame⟩]

/-- Witness for the amended C2 at a concrete accepting AuxPoW. -/
theorem check_same_chain_id_rejects_witness :
    CAuxPow.check dummyHashFn apGood zeroHash 0 ⟨true⟩
      = Except.error "Aux POW parent has our chain ID" :=
  check_same_chain_id_rejects dummyHashFn apGood zeroHash 0 ⟨true⟩ rfl rfl rfl

/-- C6 counterexample: an AuxPoW with a 31-element chain Merkle branch whose
coinbase proof index is 1 fails with "AuxPow is not a generate", not with the
branch-too-long reason — so the cap rejection is not unconditional. -/
theorem check_branch_cap_not_unconditional :
    apLongBranchIndexOne.vChainMerkleBranch.length = 31 ∧
      CAuxPow.check dummyHashFn apLongBranchIndexOne zeroHash 0 ⟨false⟩
        = Except.error "AuxPow is not a generate" :=
  ⟨by decide, rfl⟩

/-- C6 (amended): an AuxPoW whose chain Merkle branch is longer than 30 fails
with "Aux POW chain merkle branch too long", provided the two earlier checks
pass (coinbase proof index 0, and not both `strictChainId` and a parent chain
id equal to the one of the child); the remaining contents are arbitrary. -/
theorem check_branch_cap_rejects (hashFn : List Byte → Hash256)
    (ap : CAuxPow) (hashAuxBlock : Hash256) (nChainId : Int)
    (params : ConsensusParams)
    (hIdx : ap.selTx.nIndex = 0)
    (hNS : ¬(params.fStrictChainId = true ∧ ap.selParent.GetChainId = nChainId))
    (hLen : ap.vChainMerkleBranch.length > 30) :
    CAuxPow.check hashFn ap hashAuxBlock nChainId params
      = Except.error "Aux POW chain merkle branch too long" := by
  unfold CAuxPow.check
  rw [if_neg (by simp [hIdx]), if_neg hNS, if_pos hLen]

/-- Witness for the amended C6 at a 31-element branch. -/
theorem check_branch_cap_rejects_witness :
    CAuxPow.check dummyHashFn apLongBranch zeroHash 0 ⟨false⟩
      = Except.error "Aux POW chain merkle branch too long" :=
  check_branch_cap_rejects dummyHashFn apLongBranch zeroHash 0 ⟨false⟩ rfl
    (by simp) (by decide)

/-- C7 counterexample: an AuxPoW whose coinbase script holds two copies of the
merged-mining magic but whose coinbase proof index is 1 fails with
"AuxPow is not a generate", not with the multiple-headers reason — so
single-header enforcement does not hold for every such AuxPoW. -/
theorem check_two_magic_not_unconditional :
    findSub pchMergedMiningHeader apTwoMagicIndexOne.selTx.scriptSig = some 0 ∧
      findSub pchMergedMiningHeader (apTwoMagicIndexOne.selTx.scriptSig.drop 1)
        = some 35 ∧
      CAuxPow.check dummyHashFn apTwoMagicIndexOne zeroHash 0 ⟨false⟩
        = Except.error "AuxPow is not a generate" :=
  ⟨by decide, by decide, rfl⟩

/-- C7 (amended): an AuxPoW whose coinbase script holds the merged-mining
magic twice (the second copy found by re-searching from one byte past the
first match) fails with "Multiple merged mining headers in coinbase", provided
the checks that run earlier all pass (coinbase index 0, chain-id guard,
branch cap, Zhash length, parent Merkle root, root bytes present). -/
theorem check_multiple_mm_headers (hashFn : List Byte → Hash256)
    (ap : CAuxPow) (hashAuxBlock : Hash256) (nChainId : Int)
    (params : ConsensusParams) (pcPos headPos : Nat)
    (hIdx : ap.selTx.nIndex = 0)
    (hNS : ¬(params.fStrictChainId = true ∧ ap.selParent.GetChainId = nChainId))
    (hLen : ¬(ap.vChainMerkleBranch.length > 30))
    (hZ : ¬(ap.isAuxPowZhash = true ∧ ap.strZhashConfig.length ≠ 8))
    (hMR : ¬(CAuxPow.CheckMerkleBranch hashFn ap.selTx.txHash
        ap.selTx.vMerkleBranch ap.selTx.nIndex ≠ ap.selParent.hashMerkleRoot))
    (hpc : findSub
        (CAuxPow.CheckMerkleBranch hashFn hashAuxBlock ap.vChainMerkleBranch
          ap.nChainIndex).reverse ap.selTx.scriptSig = some pcPos)
    (hHead : findSub pchMergedMiningHeader ap.selTx.scriptSig = some headPos)
    (hTwo : (findSub pchMergedMiningHeader
        (ap.selTx.scriptSig.drop (headPos + 1))).isSome = true) :
    CAuxPow.check hashFn ap hashAuxBlock nChainId params
      = Except.error "Multiple merged mining headers in coinbase" := by
  simp only [CAuxPow.check]
  rw [if_neg (by simp [hIdx]), if_neg hNS, if_neg hLen, if_neg hZ, if_neg hMR,
    hpc]
  simp only [mmHeaderCheck, hHead, hTwo, if_pos]

/-- Witness for the amended C7 at a concrete two-magic AuxPoW. -/
theorem check_multiple_mm_headers_witness :
    CAuxPow.check dummyHashFn apTwoMagic zeroHash 0 ⟨false⟩
      = Except.error "Multiple merged mining headers in coinbase" :=
  check_multiple_mm_headers dummyHashFn apTwoMagic zeroHash 0 ⟨false⟩ 4 0
    rfl (by simp) (by decide) (by decide) (by decide) (by decide) (by decide)
    (by decide)

/-- C10: the verifier never succeeds when `nChainIndex` is negative (including the
`-1` sentinel), since the final test demands equality with the non-negative
`getExpectedIndex` value. -/
theorem check_not_ok_of_neg_chainIndex (hashFn : List Byte → Hash256)
    (ap : CAuxPow) (hashAuxBlock : Hash256) (nChainId : Int)
    (params : ConsensusParams) (hNeg : ap.nChainIndex < 0) :
    CAuxPow.check hashFn ap hashAuxBlock nChainId params ≠ Except.ok () := by
  intro hok
  simp only [CAuxPow.check] at hok
  repeat' split at hok
  all_goals first
    | exact Except.noConfusion hok
    | omega

/-- Witness for C10 at the `-1` sentinel chain index. -/
theorem check_not_ok_of_neg_chainIndex_witness :
    CAuxPow.check dummyHashFn apNegIndex zeroHash 0 ⟨false⟩ ≠ Except.ok () :=
  check_not_ok_of_neg_chainIndex dummyHashFn apNegIndex zeroHash 0 ⟨false⟩
    (by decide)

/-- C5: for every AuxPoW that passes all earlier checks and whose coinbase
script keeps at least 8 bytes after the embedded reversed chain Merkle root,
`check` fails with the tree-size reason unless the first four of those bytes,
read as a little-endian `uint32`, equal `1 <<  chainMerkleBranch.length`, then
fails with the wrong-index reason unless `nChainIndex` equals
`getExpectedIndex` of the nonce read from the next four bytes, and succeeds
when both hold. -/
theorem check_tail_size_and_index (hashFn : List Byte → Hash256)
    (ap : CAuxPow) (hashAuxBlock : Hash256) (nChainId : Int)
    (params : ConsensusParams) (pcPos : Nat)
    (hIdx : ap.selTx.nIndex = 0)
    (hNS : ¬(params.fStrictChainId = true ∧ ap.selParent.GetChainId = nChainId))
    (hLen : ¬(ap.vChainMerkleBranch.length > 30))
    (hZ : ¬(ap.isAuxPowZhash = true ∧ ap.strZhashConfig.length ≠ 8))
    (hMR : ¬(CAuxPow.CheckMerkleBranch hashFn ap.selTx.txHash
        ap.selTx.vMerkleBranch ap.selTx.nIndex ≠ ap.selParent.hashMerkleRoot))
    (hpc : findSub (CAuxPow.CheckMerkleBranch hashFn hashAuxBlock
        ap.vChainMerkleBranch ap.nChainIndex).reverse ap.selTx.scriptSig
        = some pcPos)
    (hHead : mmHeaderCheck ap.selTx.scriptSig pcPos = Except.ok ())
    (h8 : ¬(ap.selTx.scriptSig.length - (pcPos + (CAuxPow.CheckMerkleBranch
        hashFn hashAuxBlock ap.vChainMerkleBranch ap.nChainIndex).reverse.length)
        < 8)) :
    CAuxPow.check hashFn ap hashAuxBlock nChainId params =
      (if u32le (ap.selTx.scriptSig.drop (pcPos + (CAuxPow.CheckMerkleBranch
          hashFn hashAuxBlock ap.vChainMerkleBranch ap.nChainIndex).reverse.length))
          ≠ 2 ^ ap.vChainMerkleBranch.length % 2 ^ 32 then
        Except.error "Aux POW merkle branch size does not match parent coinbase"
      else if ap.nChainIndex ≠ (CAuxPow.getExpectedIndex
          (u32le (ap.selTx.scriptSig.drop (pcPos + (CAuxPow.CheckMerkleBranch
            hashFn hashAuxBlock ap.vChainMerkleBranch
            ap.nChainIndex).reverse.length + 4)))
          nChainId ap.vChainMerkleBranch.length : Int) then
        Except.error "Aux POW wrong index"
      else Except.ok ()) := by
  simp only [CAuxPow.check]
  rw [if_neg (by simp [hIdx]), if_neg hNS, if_neg hLen, if_neg hZ, if_neg hMR,
    hpc]
  dsimp only
  rw [hHead]
  dsimp only
  rw [if_neg h8]

/-- Witness for C5: the concrete accepting AuxPoW reaches the tail and takes
the success branch. -/
theorem check_tail_size_and_index_witness :
    CAuxPow.check dummyHashFn apGood zeroHash 0 ⟨false⟩ = Except.ok () :=
  (check_tail_size_and_index dummyHashFn apGood zeroHash 0 ⟨false⟩ 0
    rfl (by simp) (by decide) (by decide) (by decide) (by decide) (by rfl)
    (by decide)).trans (by rfl)

/-- C8: the verifier reads only the length of the Zhash personalization string,
never its bytes: two AuxPoWs identical except for the contents of
`strZhashConfig`, both of length 8, verify identically for every hash
collaborator, child hash, chain id and consensus params. -/
theorem check_zhash_config_noninterference (hashFn : List Byte → Hash256)
    (ap : CAuxPow) (s1 s2 : String) (hashAuxBlock : Hash256) (nChainId : Int)
    (params : ConsensusParams) (h1 : s1.length = 8) (h2 : s2.length = 8) :
    CAuxPow.check hashFn { ap with strZhashConfig := s1 } hashAuxBlock nChainId
        params
      = CAuxPow.check hashFn { ap with strZhashConfig := s2 } hashAuxBlock
        nChainId params := by
  cases ap
  simp [CAuxPow.check, CAuxPow.selTx, CAuxPow.selParent, CAuxPow.isAuxPowPOS,
    CAuxPow.isAuxPowEquihash, CAuxPow.isAuxPowZhash, h1, h2]

/-- Witness for C8 at two concrete 8-byte personalization strings. -/
theorem check_zhash_config_noninterference_witness :
    CAuxPow.check dummyHashFn { apGood with strZhashConfig := "AAAAAAAA" }
        zeroHash 0 ⟨false⟩
      = CAuxPow.check dummyHashFn { apGood with strZhashConfig := "BBBBBBBB" }
        zeroHash 0 ⟨false⟩ :=
  check_zhash_config_noninterference dummyHashFn apGood "AAAAAAAA" "BBBBBBBB"
    zeroHash 0 ⟨false⟩ (by decide) (by decide)

end GlobalToken
